import Mathlib

/-!
Shallow embedding of the duckdb-wasm virtual-filesystem core
(src/lib/src/io/web_filesystem.cc) and of the WebDB connection layer
(src/unnamed/part_000, declared in src/unnamed/part_001), together with
theorems settling the frozen claims about them.

Machine integers (size_t, int64_t) are modelled as Nat with explicit
wrap-around (% 2^64) only where the source can overflow.  Fallible
operations return Except.  Byte buffers are Lists of Nat.
-/

namespace DuckDBWasm

/-- The three data protocols of `WebFileSystem::DataProtocol`. -/
inductive DataProtocol where
  | buffer
  | native
  | http
deriving DecidableEq, Repr

/-- Translation of `WebFileSystem::DataBuffer`: an owned byte region with a
size and a capacity.  `data` models the single contiguous allocation, so
its length is the capacity.  Bytes past `size` are the uninitialized tail
of `new char[cap]`; the model fills them with 0. -/
structure DataBuffer where
  data : List Nat
  size : Nat
  capacity : Nat
deriving DecidableEq, Repr

/-- Well-formedness of a DataBuffer as produced by the source constructors:
the allocation holds exactly `capacity` bytes and `size ≤ capacity`. -/
def DataBuffer.WF (b : DataBuffer) : Prop :=
  b.size ≤ b.capacity ∧ b.data.length = b.capacity

instance (b : DataBuffer) : Decidable b.WF := by
  unfold DataBuffer.WF
  infer_instance

/-- Constructor `DataBuffer(data, size)`: capacity starts at size. -/
def DataBuffer.mk0 (data : List Nat) : DataBuffer :=
  { data := data, size := data.length, capacity := data.length }

/-- Translation of `WebFileSystem::DataBuffer::Resize(n)`:
if `n > capacity` grow to `max(cap + cap + cap/4, n)` (the source's
integer form of 2.25x growth) and copy the `size` live bytes; else if
`n < capacity / 2` reallocate with capacity exactly `n` copying `n`
bytes; otherwise keep the allocation.  Finally `size := n`. -/
def DataBuffer.Resize (b : DataBuffer) (n : Nat) : DataBuffer :=
  if n > b.capacity then
    let cap := max (b.capacity + b.capacity + b.capacity / 4) n
    { data := b.data.take b.size ++ List.replicate (cap - b.size) 0,
      size := n, capacity := cap }
  else if n < b.capacity / 2 then
    { data := b.data.take n, size := n, capacity := n }
  else
    { b with size := n }

/-- Translation of `WebFileSystem::WebFile`: per-file state.  The atomic
`handle_count_` is a plain Nat (single-threaded interleaving model). -/
structure WebFile where
  file_id : Nat
  file_name : String
  data_protocol : DataProtocol
  data_url : Option String
  data_fd : Option Nat
  file_size : Nat
  data_buffer : Option DataBuffer
  handle_count : Nat
deriving DecidableEq, Repr

/-- Modelled from the spec: the `WebFile` constructor
`WebFile(fs, file_id, file_name, proto)` is declared in the missing header
duckdb/web/io/web_filesystem.h.  Per the data model in section 3 of the
spec the remaining fields start unset: no url, no descriptor, no buffer,
size 0, no live handles. -/
def WebFile.mk0 (fid : Nat) (name : String) (proto : DataProtocol) : WebFile :=
  { file_id := fid, file_name := name, data_protocol := proto,
    data_url := none, data_fd := none, file_size := 0,
    data_buffer := none, handle_count := 0 }

/-- Host-boundary and lock events emitted by registry operations, used to
state ordering facts such as closing the host handle after releasing the
registry mutex. -/
inductive Event where
  | releaseFsMutex
  | acquireFsMutex
  | hostFileClose (file_id : Nat)
deriving DecidableEq, Repr

/-- State of `WebFileSystem`: the heap of `WebFile` objects keyed by id
(the targets of the `shared_ptr`s, which both registry maps alias), the
keys currently present in `files_by_id_`, the entries of `files_by_name_`
(each holding a pointer to its file, here the id), and the file id
allocator. -/
structure FS where
  heap : List (Nat × WebFile)
  files_by_id : List Nat
  files_by_name : List (String × Nat)
  next_file_id : Nat
deriving DecidableEq, Repr

/-- Dereference a file pointer: look the object up in the heap. -/
def FS.getFile (fs : FS) (fid : Nat) : Option WebFile :=
  (fs.heap.find? (fun e => e.1 == fid)).map (fun e => e.2)

/-- Look up `files_by_name_` and return the pointed-to file id. -/
def FS.findIdByName (fs : FS) (name : String) : Option Nat :=
  (fs.files_by_name.find? (fun e => e.1 == name)).map (fun e => e.2)

/-- Look up a file through `files_by_name_`. -/
def FS.findByName (fs : FS) (name : String) : Option WebFile :=
  match fs.findIdByName name with
  | none => none
  | some fid => fs.getFile fid

/-- Look up a file through `files_by_id_`. -/
def FS.findById (fs : FS) (fid : Nat) : Option WebFile :=
  if fs.files_by_id.contains fid then fs.getFile fid else none

/-- Whether `files_by_name_` holds an entry for `name`. -/
def FS.nameInMap (fs : FS) (name : String) : Bool :=
  (fs.files_by_name.find? (fun e => e.1 == name)).isSome

/-- Whether `files_by_id_` holds the key `fid`. -/
def FS.idInMap (fs : FS) (fid : Nat) : Bool :=
  fs.files_by_id.contains fid

/-- Mutate the file object `fid` in place; every map entry pointing at it
sees the update, as with the shared `WebFile` in the source. -/
def FS.updateFile (fs : FS) (fid : Nat) (g : WebFile → WebFile) : FS :=
  { fs with heap := fs.heap.map (fun e => if e.1 == fid then (e.1, g e.2) else e) }

/-- Erase the entry for `name` from `files_by_name_`. -/
def FS.eraseByName (fs : FS) (name : String) : FS :=
  { fs with files_by_name := fs.files_by_name.filter (fun e => !(e.1 == name)) }

/-- Erase the key `fid` from `files_by_id_`. -/
def FS.eraseById (fs : FS) (fid : Nat) : FS :=
  { fs with files_by_id := fs.files_by_id.filter (fun i => !(i == fid)) }

/-- Insert a freshly allocated file into the heap and both maps, as in
`files_by_id_.insert(...)` followed by `files_by_name_.insert(...)`. -/
def FS.insertFile (fs : FS) (f : WebFile) : FS :=
  { fs with heap := (f.file_id, f) :: fs.heap,
            files_by_id := f.file_id :: fs.files_by_id,
            files_by_name := (f.file_name, f.file_id) :: fs.files_by_name }

/-- Modelled from the spec: `AllocateFileID` is declared in the missing
header; per section 3 a FileId is a monotonically assigned integer. -/
def FS.AllocateFileID (fs : FS) : Nat × FS :=
  (fs.next_file_id, { fs with next_file_id := fs.next_file_id + 1 })

/-- Modelled from the spec: the `WebFileHandle` constructor is declared in
the missing header; per sections 3 and 4.4 constructing a handle
increments its file's `handle_count`. -/
def FS.mkHandle (fs : FS) (fid : Nat) : FS :=
  fs.updateFile fid (fun f => { f with handle_count := f.handle_count + 1 })

/-- Translation of the source helper `hasPrefix(text, p)`:
`text.compare(0, p.size(), p) == 0`, i.e. `p` is a prefix of `text`. -/
def hasPfx (text p : String) : Bool :=
  p.data.isPrefixOf text.data

/-- Translation of `inferDataProtocol(url)`.  Note that the source computes
a stripped `data_url` view into a local for file:// urls but returns only
the protocol; the stripped view never leaves the function. -/
def inferDataProtocol (url : String) : DataProtocol :=
  if hasPfx url "http://" || hasPfx url "https://" then
    DataProtocol.http
  else if hasPfx url "file://" then
    DataProtocol.native
  else
    DataProtocol.native

/-- The stripped view `url.substr(7)` which `inferDataProtocol` computes
into its dead local `data_url` for file:// urls. -/
def strippedFileUrl (url : String) : String :=
  { data := url.data.drop 7 }

/-- Errors surfaced by the registry operations. -/
inductive FSError where
  | alreadyRegistered (name : String)
  | openFailed (name : String)
deriving DecidableEq, Repr

/-- Translation of `WebFileSystem::RegisterFileURL`: if the name exists
with a matching stored url, build a handle to the existing file; if it
exists with a different url, fail; else allocate an id, infer the
protocol, store the full url and the given size (default 0), register the
record in both maps and build a handle.  Returns the handled file id. -/
def FS.RegisterFileURL (fs : FS) (file_name file_url : String)
    (file_size : Option Nat) : Except FSError (FS × Nat) :=
  match fs.findByName file_name with
  | some file =>
    if file.data_url = some file_url then
      Except.ok (fs.mkHandle file.file_id, file.file_id)
    else
      Except.error (FSError.alreadyRegistered file_name)
  | none =>
    let alloc := fs.AllocateFileID
    let file := { WebFile.mk0 alloc.1 file_name (inferDataProtocol file_url) with
                  data_url := some file_url, file_size := file_size.getD 0 }
    Except.ok ((alloc.2.insertFile file).mkHandle alloc.1, alloc.1)

/-- Translation of `WebFileSystem::RegisterFileBuffer`.  For an existing
NATIVE file the source installs the new contents and size, builds the
handle, releases `fs_mutex`, closes the host file and re-locks; it does
not touch `data_protocol_`.  For existing HTTP or BUFFER files it sets
the protocol to BUFFER and installs the contents.  Otherwise it registers
a fresh BUFFER file.  Returns the handled file id and the event trace. -/
def FS.RegisterFileBuffer (fs : FS) (file_name : String)
    (file_buffer : DataBuffer) : FS × Nat × List Event :=
  match fs.findByName file_name with
  | some file =>
    match file.data_protocol with
    | DataProtocol.native =>
      let fs := fs.updateFile file.file_id (fun f =>
        { f with file_size := file_buffer.size, data_buffer := some file_buffer })
      ((fs.mkHandle file.file_id), file.file_id,
        [Event.releaseFsMutex, Event.hostFileClose file.file_id,
         Event.acquireFsMutex])
    | _ =>
      let fs := fs.updateFile file.file_id (fun f =>
        { f with data_protocol := DataProtocol.buffer,
                 file_size := file_buffer.size, data_buffer := some file_buffer })
      ((fs.mkHandle file.file_id), file.file_id, [])
  | none =>
    let alloc := fs.AllocateFileID
    let file := { WebFile.mk0 alloc.1 file_name DataProtocol.buffer with
                  file_size := file_buffer.size, data_buffer := some file_buffer }
    (((alloc.2.insertFile file).mkHandle alloc.1), alloc.1, [])

/-- Translation of `WebFileSystem::TryDropFile`: an unknown name succeeds
trivially; a known file is erased from both maps iff it has no live
handles. -/
def FS.TryDropFile (fs : FS) (file_name : String) : Bool × FS :=
  match fs.findByName file_name with
  | none => (true, fs)
  | some file =>
    if file.handle_count = 0 then
      (true, (fs.eraseById file.file_id).eraseByName file.file_name)
    else
      (false, fs)

/-- Whether the registered file `fid` has no live handles, as tested by
`DropDanglingFiles`. -/
def FS.isDangling (fs : FS) (fid : Nat) : Bool :=
  match fs.getFile fid with
  | some f => f.handle_count == 0
  | none => false

/-- Translation of `WebFileSystem::DropDanglingFiles`: every file with
`handle_count_ == 0` is erased from `files_by_name_` and then from
`files_by_id_`. -/
def FS.DropDanglingFiles (fs : FS) : FS :=
  { fs with
    files_by_id := fs.files_by_id.filter (fun fid => !(fs.isDangling fid)),
    files_by_name := fs.files_by_name.filter (fun e => !(fs.isDangling e.2)) }

/-- Translation of `WebFileSystem::WebFileHandle::Close` on a handle whose
file is `fid`.  `have_file_lock` is the outcome of the non-blocking
`try_lock` on the file mutex.  The count is decremented first; the file is
erased from both maps only when the count reached 0, the exclusive lock
was obtained and the protocol is not BUFFER. -/
def FS.CloseHandle (fs : FS) (fid : Nat) (have_file_lock : Bool) : FS :=
  match fs.getFile fid with
  | none => fs
  | some file0 =>
    let file := { file0 with handle_count := file0.handle_count - 1 }
    let fs := fs.updateFile fid (fun _ => file)
    if file.handle_count > 0 then fs
    else if !have_file_lock then fs
    else if file.data_protocol = DataProtocol.buffer then fs
    else (fs.eraseByName file.file_name).eraseById fid

/-- Outcome of the host runtime call `duckdb_web_fs_file_open`. -/
inductive HostOpenResult where
  | failure
  | success (file_size : Nat) (inline_buffer : Option (List Nat))
deriving DecidableEq, Repr

/-- Translation of `WebFileSystem::Truncate(handle, new_size)` on the
file `fid`: BUFFER files resize their data buffer, other protocols
truncate through the host; `file_size_` is then set to `new_size`. -/
def FS.Truncate (fs : FS) (fid : Nat) (new_size : Nat) : FS :=
  match fs.getFile fid with
  | none => fs
  | some file =>
    let file := match file.data_protocol with
      | DataProtocol.buffer =>
          { file with data_buffer := file.data_buffer.map (fun (b : DataBuffer) => b.Resize new_size) }
      | _ => file
    fs.updateFile fid (fun _ => { file with file_size := new_size })

/-- Translation of `WebFileSystem::OpenFile(url, flags, ...)`, with
`create_new` standing for `FILE_FLAGS_FILE_CREATE_NEW` and `host` the
outcome of `duckdb_web_fs_file_open`.  An unknown url registers a fresh
record with the inferred protocol and `data_url_ = url` (unstripped).
The handle is constructed before the protocol switch.  For NATIVE files
without a preset descriptor and for HTTP files the host open runs; on
success an inline buffer promotes the file to BUFFER keeping `data_url_`;
on failure the file is erased from both maps and the error propagates.
Returns the final state and the result. -/
def FS.OpenFile (fs : FS) (url : String) (create_new : Bool)
    (host : HostOpenResult) : FS × Except FSError Nat :=
  let looked :=
    match fs.findIdByName url with
    | some fid => (fs, fid)
    | none =>
      let alloc := fs.AllocateFileID
      let file := { WebFile.mk0 alloc.1 url (inferDataProtocol url) with
                    data_url := some url }
      (alloc.2.insertFile file, alloc.1)
  let fid := looked.2
  let fs := looked.1.mkHandle fid
  match fs.getFile fid with
  | none => (fs, Except.error (FSError.openFailed url))
  | some file =>
    if file.data_protocol = DataProtocol.buffer then
      let fs :=
        if create_new then
          fs.updateFile fid (fun f =>
            { f with data_buffer := f.data_buffer.map (fun (b : DataBuffer) => b.Resize 0),
                     file_size := 0 })
        else fs
      (fs, Except.ok fid)
    else if file.data_protocol = DataProtocol.native ∧ file.data_fd.isSome = true then
      (fs, Except.ok fid)
    else
      match host with
      | HostOpenResult.failure =>
        (((fs.eraseByName file.file_name).eraseById fid),
         Except.error (FSError.openFailed url))
      | HostOpenResult.success host_size inline =>
        let fs := fs.updateFile fid (fun f => { f with file_size := host_size })
        let fs :=
          match inline with
          | some bytes =>
            fs.updateFile fid (fun f =>
              { f with data_protocol := DataProtocol.buffer,
                       data_buffer :=
                         some { data := bytes, size := host_size,
                                capacity := host_size } })
          | none => fs
        let fs := if create_new then fs.Truncate fid 0 else fs
        (fs, Except.ok fid)

/-- Translation of the inner read of `WebFileSystem::Read(handle, buffer,
nr_bytes)` for BUFFER files: the number of bytes served from the data
buffer, `min(nr_bytes, size - min(position, size))`. -/
def ReadOnceBuffer (buf : DataBuffer) (pos nr : Nat) : Nat :=
  min nr (buf.size - min pos buf.size)

/-- Translation of the loop of the positional
`WebFileSystem::Read(handle, buffer, nr_bytes, location)` for a BUFFER
file, with explicit fuel.  The loop state is (position, nr_bytes); the
guard re-tests the never-advancing `location` against the captured
`file_size`.  `none` means the fuel ran out before the loop exited. -/
def ReadAtLoop (file_size : Nat) (buf : DataBuffer) (location : Nat) :
    Nat → Nat × Nat → Option (Nat × Nat)
  | 0, _ => none
  | fuel + 1, s =>
    if 0 < s.2 ∧ location < file_size then
      let n := ReadOnceBuffer buf s.1 s.2
      ReadAtLoop file_size buf location fuel (s.1 + n, s.2 - n)
    else
      some s

/-- The positional read entry: `position_ = location`, then the loop.
The guard size is `file_->file_size_`, the inner reads use the data
buffer (which the source dereferences; BUFFER files have one). -/
def ReadAt (file : WebFile) (nr location fuel : Nat) : Option (Nat × Nat) :=
  ReadAtLoop file.file_size (file.data_buffer.getD (DataBuffer.mk0 []))
    location fuel (location, nr)

/-- Error thrown by `WebFileSystem::Write` for HTTP files:
`writing to HTTP files is not implemented` (the NotSupported failure of
the spec taxonomy). -/
inductive WriteError where
  | httpNotImplemented
deriving DecidableEq, Repr

/-- Overwrite `bytes` into `data` starting at `pos` (the memcpy into the
data buffer). -/
def listWrite (data : List Nat) (pos : Nat) (bytes : List Nat) : List Nat :=
  data.take pos ++ bytes ++ data.drop (pos + bytes.length)

/-- Translation of `WebFileSystem::Write(handle, buffer, nr_bytes)` at
position `pos`.  BUFFER: if the write end exceeds the buffer size,
`Truncate(handle, max(end, file_size))` grows the buffer and the file
size, then the bytes are copied and the position moves to the end.
NATIVE: the host write stores all bytes (the source asserts
`n == nr_bytes`; the test runtime returns `bytes`), extending
`file_size_` when writing past the end.  HTTP: throws.  Returns the
updated file, the new position and the bytes written. -/
def WriteOnce (file : WebFile) (pos : Nat) (bytes : List Nat) :
    Except WriteError (WebFile × Nat × Nat) :=
  match file.data_protocol with
  | DataProtocol.buffer =>
    let nr := bytes.length
    let endPos := pos + nr
    let buf0 := file.data_buffer.getD (DataBuffer.mk0 [])
    let grow := endPos > buf0.size
    let new_size := if grow then max endPos file.file_size else file.file_size
    let buf1 := if grow then buf0.Resize new_size else buf0
    let buf2 := { buf1 with data := listWrite buf1.data pos bytes }
    Except.ok ({ file with data_buffer := some buf2, file_size := new_size },
               endPos, nr)
  | DataProtocol.native =>
    let n := bytes.length
    let endPos := pos + bytes.length
    let fileA :=
      if endPos > file.file_size then
        { file with file_size := max (pos + n) file.file_size }
      else file
    Except.ok (fileA, pos + n, n)
  | DataProtocol.http =>
    Except.error WriteError.httpNotImplemented

/-- Translation of the loop of the positional
`WebFileSystem::Write(handle, buffer, nr_bytes, location)`, with explicit
fuel.  The state is (file, position, remaining bytes); the guard re-tests
the never-advancing `location` against the `file_size` captured before
the loop.  `none` means the fuel ran out. -/
def WriteAtLoop (file_size location : Nat) :
    Nat → WebFile × Nat × List Nat →
    Option (Except WriteError (WebFile × Nat × List Nat))
  | 0, _ => none
  | fuel + 1, s =>
    if 0 < s.2.2.length ∧ location < file_size then
      match WriteOnce s.1 s.2.1 s.2.2 with
      | Except.error e => some (Except.error e)
      | Except.ok r =>
        WriteAtLoop file_size location fuel (r.1, r.2.1, s.2.2.drop r.2.2)
    else
      some (Except.ok s)

/-- The positional write entry: `position_ = location`, then the loop over
the captured `file_size`. -/
def WriteAt (file : WebFile) (bytes : List Nat) (location fuel : Nat) :
    Option (Except WriteError (WebFile × Nat × List Nat)) :=
  WriteAtLoop file.file_size location fuel (file, location, bytes)

/-- Translation of `std::numeric_limits<size_t>::max()`. -/
def SIZE_T_MAX : Nat := 2 ^ 64 - 1

/-- Prepared-statement state of `WebDB::Connection`: the wrapping id
counter and the key set of `prepared_statements_`. -/
structure Connection where
  next_prepared_statement_id : Nat
  prepared_statements : List Nat
deriving DecidableEq, Repr

/-- Translation of the id-assignment core of
`WebDB::Connection::CreatePreparedStatement` (a successful engine
prepare): `id = next_prepared_statement_id_++` with size_t wrap-around,
then the counter is reset to 0 when it reaches the sentinel
`numeric_limits<size_t>::max()`, and `prepared_statements_.emplace(id, ...)`
inserts only when the key is absent. -/
def Connection.CreatePreparedStatement (c : Connection) : Nat × Connection :=
  let id := c.next_prepared_statement_id
  let next1 := (id + 1) % 2 ^ 64
  let next2 := if next1 = SIZE_T_MAX then 0 else next1
  let stmts := if id ∈ c.prepared_statements then c.prepared_statements
               else id :: c.prepared_statements
  (id, { next_prepared_statement_id := next2, prepared_statements := stmts })

/-- Translation of `WebDB::Connection::ClosePreparedStatement`: erase the
id if present, else a KeyError. -/
def Connection.ClosePreparedStatement (c : Connection) (id : Nat) :
    Except String Connection :=
  if id ∈ c.prepared_statements then
    Except.ok { c with
      prepared_statements := c.prepared_statements.filter (fun i => !(i == id)) }
  else
    Except.error "No prepared statement found with ID"

/-- Iterate `CreatePreparedStatement` (keeping every statement open). -/
def Connection.createN : Nat → Connection → Connection
  | 0, c => c
  | n + 1, c => Connection.createN n c.CreatePreparedStatement.2

/-- Translation of `ArrowInsertOptions` as consumed by
`InsertArrowFromIPCStream`. -/
structure ArrowInsertOptions where
  schema_name : String
  table_name : String
  create_new : Bool
deriving DecidableEq, Repr

/-- The partial IPC-insert state of a connection: the stored
`arrow_insert_options_` and the buffering `arrow_ipc_stream_` decoder
(modelled by its presence). -/
structure IPCInsertState where
  arrow_insert_options : Option ArrowInsertOptions
  arrow_ipc_stream : Option Unit
deriving DecidableEq, Repr

/-- Outcomes of the external calls made by `InsertArrowFromIPCStream`:
the options parse (`ReadFrom`), the decoder `Consume` (ok with the
end-of-stream flag, or an error Status), the record-batch reader
construction (`ExportRecordBatchReader`), and the engine table function
(`TableFunction` / `Create` / `Insert`, which fail by throwing). -/
structure IPCCallEnv where
  options_parse : Except String ArrowInsertOptions
  consume : Except String Bool
  export_reader : Except String Unit
  engine : Except String Unit
deriving Repr

/-- The phase of `InsertArrowFromIPCStream` from the `Consume` call on:
an error Status from `Consume` or from the reader construction is
returned through `ARROW_RETURN_NOT_OK` without touching the state; a
thrown engine failure is caught and resets both the options and the
decoder; success also resets both. -/
def ipcConsumePhase (st : IPCInsertState) (env : IPCCallEnv) :
    Except String Unit × IPCInsertState :=
  match env.consume with
  | Except.error e => (Except.error e, st)
  | Except.ok eos =>
    if !eos then (Except.ok (), st)
    else
      match env.export_reader with
      | Except.error e => (Except.error e, st)
      | Except.ok _ =>
        match env.engine with
        | Except.error e =>
          (Except.error e,
           { arrow_insert_options := none, arrow_ipc_stream := none })
        | Except.ok _ =>
          (Except.ok (),
           { arrow_insert_options := none, arrow_ipc_stream := none })

/-- Translation of `WebDB::Connection::InsertArrowFromIPCStream`.  On a
fresh call (no decoder yet) the options are reset and re-parsed before
the decoder is created; a parse error is returned at that point.  Then
the consume phase runs. -/
def Connection.InsertArrowFromIPCStream (st : IPCInsertState)
    (env : IPCCallEnv) : Except String Unit × IPCInsertState :=
  if st.arrow_ipc_stream.isNone then
    match env.options_parse with
    | Except.error e =>
      (Except.error e,
       { arrow_insert_options := none, arrow_ipc_stream := st.arrow_ipc_stream })
    | Except.ok opts =>
      ipcConsumePhase
        { arrow_insert_options := some opts, arrow_ipc_stream := some () } env
  else
    ipcConsumePhase st env

/-! Concrete states used as inputs of witnesses and counterexamples. -/

/-- An empty registry. -/
def fsEmpty : FS :=
  { heap := [], files_by_id := [], files_by_name := [], next_file_id := 0 }

/-- An HTTP file with one live handle. -/
def exHttpFile : WebFile :=
  { file_id := 7, file_name := "x", data_protocol := DataProtocol.http,
    data_url := some "http://h/x", data_fd := none, file_size := 10,
    data_buffer := none, handle_count := 1 }

/-- A registry holding `exHttpFile` in both maps. -/
def exFs : FS :=
  { heap := [(7, exHttpFile)], files_by_id := [7],
    files_by_name := [("x", 7)], next_file_id := 8 }

/-- A NATIVE file with no live handle. -/
def exNativeFile : WebFile :=
  { file_id := 3, file_name := "f", data_protocol := DataProtocol.native,
    data_url := some "f", data_fd := none, file_size := 5,
    data_buffer := none, handle_count := 0 }

/-- A registry holding `exNativeFile` in both maps. -/
def exFsNative : FS :=
  { heap := [(3, exNativeFile)], files_by_id := [3],
    files_by_name := [("f", 3)], next_file_id := 4 }

/-- A BUFFER file with two live handles. -/
def exBufFile : WebFile :=
  { file_id := 1, file_name := "b", data_protocol := DataProtocol.buffer,
    data_url := none, data_fd := none, file_size := 2,
    data_buffer := some (DataBuffer.mk0 [10, 20]), handle_count := 2 }

/-- A registry holding `exBufFile` in both maps. -/
def exFsBuf : FS :=
  { heap := [(1, exBufFile)], files_by_id := [1],
    files_by_name := [("b", 1)], next_file_id := 2 }

/-- A three-byte replacement buffer. -/
def newBuf : DataBuffer := DataBuffer.mk0 [1, 2, 3]

/-- A fresh connection: id counter 0, no prepared statements. -/
def cInit : Connection :=
  { next_prepared_statement_id := 0, prepared_statements := [] }

/-- Valid insert options used by concrete IPC-insert runs. -/
def exOpts : ArrowInsertOptions :=
  { schema_name := "main", table_name := "t", create_new := true }

/-- An IPC-insert run whose decoder `Consume` fails with an error Status. -/
def envConsumeFail : IPCCallEnv :=
  { options_parse := Except.ok exOpts,
    consume := Except.error "expected schema message",
    export_reader := Except.ok (), engine := Except.ok () }

/-- An IPC-insert run whose engine call throws. -/
def envEngineFail : IPCCallEnv :=
  { options_parse := Except.ok exOpts, consume := Except.ok true,
    export_reader := Except.ok (),
    engine := Except.error "table t already exists" }

/-- An IPC-insert run with a malformed options document. -/
def envParseFail : IPCCallEnv :=
  { options_parse := Except.error "options must be an object",
    consume := Except.ok false, export_reader := Except.ok (),
    engine := Except.ok () }

/-- An IPC-insert run whose reader construction fails with a Status. -/
def envReaderFail : IPCCallEnv :=
  { options_parse := Except.ok exOpts, consume := Except.ok true,
    export_reader := Except.error "invalid stream",
    engine := Except.ok () }

/-! Helper lemmas shared by the claim theorems. -/

/-- Mutating a file object through one map entry is seen when the object
is dereferenced again. -/
theorem getFile_updateFile (fs : FS) (fid : Nat) (g : WebFile → WebFile) :
    (fs.updateFile fid g).getFile fid = (fs.getFile fid).map g := by
  unfold FS.getFile FS.updateFile
  induction fs.heap with
  | nil => rfl
  | cons e t ih =>
    by_cases he : e.1 == fid
    · simp [List.find?, he]
    · simp only [List.map_cons, List.find?]
      rw [if_neg (by simpa using he)]
      simpa [he] using ih

/-- A freshly inserted file is found in the heap under its id. -/
theorem getFile_insertFile (fs : FS) (f : WebFile) :
    (fs.insertFile f).getFile f.file_id = some f := by
  simp [FS.getFile, FS.insertFile, List.find?]

/-- Variant of `getFile_insertFile` keyed by an id known to match. -/
theorem getFile_insertFile_eq (fs : FS) (f : WebFile) (i : Nat)
    (h : f.file_id = i) : (fs.insertFile f).getFile i = some f := by
  rw [← h]
  exact getFile_insertFile fs f

/-- Protocol inference never yields BUFFER. -/
theorem inferDataProtocol_ne_buffer (url : String) :
    inferDataProtocol url ≠ DataProtocol.buffer := by
  unfold inferDataProtocol
  split_ifs <;> simp

/-- Mutating a file object leaves `files_by_name_` untouched. -/
theorem findIdByName_updateFile (fs : FS) (fid : Nat) (g : WebFile → WebFile)
    (n : String) : (fs.updateFile fid g).findIdByName n = fs.findIdByName n := rfl

/-- Mutating a file object leaves the name map membership untouched. -/
theorem nameInMap_updateFile (fs : FS) (fid : Nat) (g : WebFile → WebFile)
    (n : String) : (fs.updateFile fid g).nameInMap n = fs.nameInMap n := rfl

/-- Mutating a file object leaves the id map membership untouched. -/
theorem idInMap_updateFile (fs : FS) (fid : Nat) (g : WebFile → WebFile)
    (i : Nat) : (fs.updateFile fid g).idInMap i = fs.idInMap i := rfl

/-! Claim theorems. -/

/-- Claim C9: for every well-formed DataBuffer with capacity cap and every
n, after `Resize(n)` the size equals n and `size ≤ capacity` (and the
bytes sit in one contiguous allocation of exactly the new capacity, i.e.
well-formedness is preserved); when `n > cap` the new capacity is
`max(2.25 x cap, n)` in the integer form `cap + cap + cap / 4` computed
by the source; when `n < cap / 2` the buffer is reallocated with capacity
exactly n. -/
theorem DataBuffer_Resize_spec (b : DataBuffer) (n : Nat) (hwf : b.WF) :
    (b.Resize n).size = n ∧
    (b.Resize n).WF ∧
    (b.capacity < n →
      (b.Resize n).capacity = max (b.capacity + b.capacity + b.capacity / 4) n) ∧
    (n < b.capacity / 2 → (b.Resize n).capacity = n) := by
  obtain ⟨hsc, hlc⟩ := hwf
  unfold DataBuffer.Resize DataBuffer.WF
  split_ifs with h1 h2
  · dsimp only
    refine ⟨rfl, ⟨le_max_right _ _, ?_⟩, fun _ => rfl, fun h => absurd h (by omega)⟩
    have hle : b.size ≤ max (b.capacity + b.capacity + b.capacity / 4) n := by
      have hr := le_max_left (b.capacity + b.capacity + b.capacity / 4) n
      omega
    simp only [List.length_append, List.length_take, List.length_replicate, hlc]
    omega
  · dsimp only
    refine ⟨rfl, ⟨le_refl n, ?_⟩, fun h => absurd h h1, fun _ => rfl⟩
    simp only [List.length_take, hlc]
    omega
  · dsimp only
    exact ⟨rfl, ⟨by omega, hlc⟩, fun h => absurd h h1, fun h => absurd h h2⟩

/-- Witness for C9 at a concrete four-byte buffer grown to ten bytes:
the growth branch yields capacity `max(4 + 4 + 1, 10) = 10`, and the
shrink bound is vacuous. -/
theorem DataBuffer_Resize_spec_witness :
    ((DataBuffer.mk0 [5, 6, 7, 8]).Resize 10).size = 10 ∧
    ((DataBuffer.mk0 [5, 6, 7, 8]).Resize 10).capacity = 10 ∧
    ((DataBuffer.mk0 [5, 6, 7, 8]).Resize 10).data.length = 10 := by
  have h := DataBuffer_Resize_spec (DataBuffer.mk0 [5, 6, 7, 8]) 10 (by decide)
  refine ⟨h.1, ?_, ?_⟩
  · rw [h.2.2.1 (by decide)]
    decide
  · rw [h.2.1.2, h.2.2.1 (by decide)]
    decide

/-- Claim C8: for every handle on a file whose protocol is HTTP, every
write through that handle fails: the write path throws the
writing-to-HTTP-files-is-not-implemented error (the NotSupported failure
of the spec), touching neither the file nor the position. -/
theorem Write_http_not_supported (file : WebFile) (pos : Nat)
    (bytes : List Nat) (h : file.data_protocol = DataProtocol.http) :
    WriteOnce file pos bytes = Except.error WriteError.httpNotImplemented := by
  unfold WriteOnce
  rw [h]

/-- Witness for C8: a write of three bytes through a handle on the
concrete HTTP file fails. -/
theorem Write_http_not_supported_witness :
    exHttpFile.data_protocol = DataProtocol.http ∧
    WriteOnce exHttpFile 0 [1, 2, 3] =
      Except.error WriteError.httpNotImplemented :=
  ⟨rfl, Write_http_not_supported exHttpFile 0 [1, 2, 3] rfl⟩

/-- Once the position has reached the file size with bytes still
requested, the positional read loop repeats the same state forever: the
inner read returns 0, `nr_bytes` stays 3 and the guard keeps testing the
never-advancing `location`. -/
theorem readAtLoop_stuck (fuel : Nat) :
    ReadAtLoop 2 (DataBuffer.mk0 [10, 20]) 0 fuel (2, 3) = none := by
  induction fuel with
  | zero => rfl
  | succ k ih =>
    simp only [ReadAtLoop, ReadOnceBuffer]
    simpa [DataBuffer.mk0] using ih

/-- Claim C1, evaluated at the failing input: the positional
`Read(handle, buffer, nr_bytes, location)` does not terminate when the
underlying read returns 0 bytes.  On a BUFFER file of size 2, a read of
5 bytes at location 0 runs out of any amount of fuel: after serving 2
bytes the inner reads return 0, yet the guard `nr_bytes > 0 && location
< file_size` stays true because `location` is never advanced.  Dually,
the positional `Write(handle, buf, len, location)` with
`location >= file_size` returns immediately with all bytes unwritten
instead of running until `len` is exhausted. -/
theorem positional_read_write_nontermination :
    (∀ fuel, ReadAt exBufFile 5 0 fuel = none) ∧
    WriteAt exBufFile [1, 2, 3] 5 1 =
      some (Except.ok (exBufFile, 5, [1, 2, 3])) := by
  constructor
  · intro fuel
    cases fuel with
    | zero => rfl
    | succ k =>
      show ReadAtLoop 2 (DataBuffer.mk0 [10, 20]) 0 (k + 1) (0, 5) = none
      simp only [ReadAtLoop, ReadOnceBuffer]
      simpa [DataBuffer.mk0] using readAtLoop_stuck k
  · rfl

/-- Claim C2 (amended): TryDropFile, DropDanglingFiles and handle close
never remove a file with live handles from either registry map: a drop
on a file with `handle_count > 0` returns false and leaves the state
unchanged, DropDanglingFiles keeps every name entry and id key whose
file has a positive count, and closing one of several handles only
decrements the count without erasing anything.  (A failed OpenFile, in
contrast, does remove the file from both maps even though its
handle keeps `handle_count > 0` - see the counterexample.) -/
theorem registry_preserves_files_with_live_handles (fs : FS) (d : String)
    (g f : WebFile) (e : String × Nat) (fid : Nat) (lock : Bool) :
    (fs.findByName d = some g → 0 < g.handle_count →
        fs.TryDropFile d = (false, fs)) ∧
    (e ∈ fs.files_by_name → fs.getFile e.2 = some f → 0 < f.handle_count →
        e ∈ fs.DropDanglingFiles.files_by_name) ∧
    (fid ∈ fs.files_by_id → fs.getFile fid = some f → 0 < f.handle_count →
        fid ∈ fs.DropDanglingFiles.files_by_id) ∧
    (fs.getFile fid = some f → 1 < f.handle_count →
        fs.CloseHandle fid lock =
          fs.updateFile fid
            (fun _ => { f with handle_count := f.handle_count - 1 })) := by
  refine ⟨?_, ?_, ?_, ?_⟩
  · intro h1 h2
    unfold FS.TryDropFile
    rw [h1]
    dsimp only
    rw [if_neg (by omega)]
  · intro he hg hc
    unfold FS.DropDanglingFiles
    refine List.mem_filter.mpr ⟨he, ?_⟩
    simp [FS.isDangling, hg]
    omega
  · intro hi hg hc
    unfold FS.DropDanglingFiles
    refine List.mem_filter.mpr ⟨hi, ?_⟩
    simp [FS.isDangling, hg]
    omega
  · intro hg hc
    unfold FS.CloseHandle
    rw [hg]
    dsimp only
    rw [if_pos (by omega)]

/-- Witness for the amended C2 at concrete registries: the held HTTP file
survives TryDropFile and DropDanglingFiles, and closing one of the two
handles of the BUFFER file only decrements its count. -/
theorem registry_preserves_files_with_live_handles_witness :
    exFs.TryDropFile "x" = (false, exFs) ∧
    ("x", 7) ∈ exFs.DropDanglingFiles.files_by_name ∧
    7 ∈ exFs.DropDanglingFiles.files_by_id ∧
    exFsBuf.CloseHandle 1 true =
      exFsBuf.updateFile 1 (fun _ => { exBufFile with handle_count := 1 }) := by
  have h1 := registry_preserves_files_with_live_handles exFs "x" exHttpFile
    exHttpFile ("x", 7) 7 true
  have h2 := registry_preserves_files_with_live_handles exFsBuf "b" exBufFile
    exBufFile ("b", 1) 1 true
  exact ⟨h1.1 (by decide) (by decide),
    h1.2.1 (by decide) (by decide) (by decide),
    h1.2.2.1 (by decide) (by decide) (by decide),
    h2.2.2.2 (by decide) (by decide)⟩

/-- Claim C2 counterexample: on the registry holding the HTTP file "x"
with one live handle, a failed OpenFile("x") removes the file from both
`files_by_id_` and `files_by_name_` although its `handle_count` was
positive throughout (the opening call itself had just raised it to 2). -/
theorem openfile_failure_drops_live_file :
    0 < exHttpFile.handle_count ∧
    exFs.findByName "x" = some exHttpFile ∧
    exFs.idInMap 7 = true ∧
    (exFs.OpenFile "x" false HostOpenResult.failure).1.nameInMap "x" = false ∧
    (exFs.OpenFile "x" false HostOpenResult.failure).1.idInMap 7 = false := by
  refine ⟨by decide, by decide, by decide, by decide, by decide⟩

/-- Claim C3, evaluated at the failing input: re-registering the existing
NATIVE file "f" with a three-byte buffer does replace the contents and
the size, and the host handle close is issued after releasing fs_mutex
(and before re-acquiring it), exactly as claimed - but the protocol is
left at NATIVE instead of being switched to BUFFER, contradicting the
claim, the comment in the source (register as buffer) and the spec
invariant I2 (BUFFER iff a data buffer is present). -/
theorem RegisterFileBuffer_native_keeps_protocol :
    ((exFsNative.RegisterFileBuffer "f" newBuf).1.getFile 3).map
        WebFile.data_buffer = some (some newBuf) ∧
    ((exFsNative.RegisterFileBuffer "f" newBuf).1.getFile 3).map
        WebFile.file_size = some newBuf.size ∧
    (exFsNative.RegisterFileBuffer "f" newBuf).2.2 =
      [Event.releaseFsMutex, Event.hostFileClose 3, Event.acquireFsMutex] ∧
    ((exFsNative.RegisterFileBuffer "f" newBuf).1.getFile 3).map
        WebFile.data_protocol = some DataProtocol.native := by
  refine ⟨by decide, by decide, by decide, by decide⟩

/-- The returned prepared-statement id is the counter value. -/
theorem create_id_eq (c : Connection) :
    c.CreatePreparedStatement.1 = c.next_prepared_statement_id := rfl

/-- Below the sentinel, the counter advances by one modulo `2^64 - 1`. -/
theorem create_next_eq (c : Connection)
    (h : c.next_prepared_statement_id < SIZE_T_MAX) :
    c.CreatePreparedStatement.2.next_prepared_statement_id =
      (c.next_prepared_statement_id + 1) % SIZE_T_MAX := by
  have hM : SIZE_T_MAX = 2 ^ 64 - 1 := rfl
  unfold Connection.CreatePreparedStatement
  dsimp only
  rw [Nat.mod_eq_of_lt (by omega)]
  split_ifs with he
  · rw [he, Nat.mod_self]
  · rw [Nat.mod_eq_of_lt (by omega)]

/-- Live ids survive a create (the emplace only ever adds a key). -/
theorem create_mem_after (c : Connection) (x : Nat)
    (h : x ∈ c.prepared_statements) :
    x ∈ c.CreatePreparedStatement.2.prepared_statements := by
  unfold Connection.CreatePreparedStatement
  dsimp only
  split_ifs
  · exact h
  · exact List.mem_cons_of_mem _ h

/-- The returned id is live afterwards. -/
theorem create_returns_mem (c : Connection) :
    c.CreatePreparedStatement.1 ∈
      c.CreatePreparedStatement.2.prepared_statements := by
  unfold Connection.CreatePreparedStatement
  dsimp only
  split_ifs with he
  · exact he
  · exact List.mem_cons_self _ _

/-- Claim C4 (amended): from any connection state whose counter is below
the sentinel (the only states the code produces), CreatePreparedStatement
returns the current counter value, advances the counter by one modulo
`2^64 - 1` (so the sentinel `numeric_limits<size_t>::max()` is skipped),
and the returned id is in the statement table afterwards - but the id is
not checked against the live ids, so after a wrap-around it can equal
the id of a statement that is still live (see the counterexample). -/
theorem CreatePreparedStatement_wraps (c : Connection)
    (h : c.next_prepared_statement_id < SIZE_T_MAX) :
    c.CreatePreparedStatement.1 = c.next_prepared_statement_id ∧
    c.CreatePreparedStatement.2.next_prepared_statement_id =
      (c.next_prepared_statement_id + 1) % SIZE_T_MAX ∧
    c.CreatePreparedStatement.2.next_prepared_statement_id ≠ SIZE_T_MAX ∧
    c.CreatePreparedStatement.1 ∈
      c.CreatePreparedStatement.2.prepared_statements := by
  have hM : SIZE_T_MAX = 2 ^ 64 - 1 := rfl
  refine ⟨create_id_eq c, create_next_eq c h, ?_, create_returns_mem c⟩
  rw [create_next_eq c h]
  exact Nat.ne_of_lt (Nat.mod_lt _ (by omega))

/-- Witness for the amended C4 at the concrete state with counter 5 and
live ids 1 and 2: the call returns 5, advances the counter to
`6 % (2^64 - 1)`, and 5 is live afterwards. -/
theorem CreatePreparedStatement_wraps_witness :
    (Connection.CreatePreparedStatement ⟨5, [1, 2]⟩).1 = 5 ∧
    (Connection.CreatePreparedStatement ⟨5, [1, 2]⟩).2.next_prepared_statement_id =
      6 % SIZE_T_MAX ∧
    (Connection.CreatePreparedStatement ⟨5, [1, 2]⟩).1 ∈
      (Connection.CreatePreparedStatement ⟨5, [1, 2]⟩).2.prepared_statements := by
  have h := CreatePreparedStatement_wraps ⟨5, [1, 2]⟩ (by decide)
  exact ⟨h.1, h.2.1, h.2.2.2⟩

/-- Composing iterated creates. -/
theorem createN_add (m n : Nat) (c : Connection) :
    Connection.createN (m + n) c =
      Connection.createN n (Connection.createN m c) := by
  induction m generalizing c with
  | zero =>
    rw [Nat.zero_add]
    rfl
  | succ k ih =>
    have hs : k + 1 + n = (k + n) + 1 := by omega
    rw [hs]
    show Connection.createN (k + n) c.CreatePreparedStatement.2 = _
    rw [ih]
    rfl

/-- Counter arithmetic of iterated creates below the wrap point. -/
theorem createN_next (n : Nat) (c : Connection)
    (h : c.next_prepared_statement_id + n < SIZE_T_MAX) :
    (Connection.createN n c).next_prepared_statement_id =
      c.next_prepared_statement_id + n := by
  induction n generalizing c with
  | zero => rfl
  | succ k ih =>
    have hc : c.CreatePreparedStatement.2.next_prepared_statement_id =
        c.next_prepared_statement_id + 1 := by
      rw [create_next_eq c (by omega), Nat.mod_eq_of_lt (by omega)]
    have hX : c.CreatePreparedStatement.2.next_prepared_statement_id + k <
        SIZE_T_MAX := by
      rw [hc]
      omega
    show (Connection.createN k c.CreatePreparedStatement.2).next_prepared_statement_id = _
    rw [ih c.CreatePreparedStatement.2 hX, hc]
    omega

/-- The live ids only grow across creates. -/
theorem createN_mem (n : Nat) (c : Connection) (x : Nat)
    (h : x ∈ c.prepared_statements) :
    x ∈ (Connection.createN n c).prepared_statements := by
  induction n generalizing c with
  | zero => exact h
  | succ k ih =>
    exact ih c.CreatePreparedStatement.2 (create_mem_after c x h)

/-- Claim C4 counterexample: the collision is reachable.  Starting from a
fresh connection and creating `2^64 - 1` statements while closing none,
the counter has wrapped back to 0 while statement 0 is still live; the
next CreatePreparedStatement returns the id 0 of that live statement,
falsifying that returned ids never collide with live ones. -/
theorem prepared_statement_id_collision :
    (Connection.createN SIZE_T_MAX cInit).CreatePreparedStatement.1 ∈
      (Connection.createN SIZE_T_MAX cInit).prepared_statements := by
  have hM : SIZE_T_MAX = 2 ^ 64 - 1 := rfl
  have hsplit : SIZE_T_MAX = 1 + ((SIZE_T_MAX - 2) + 1) := by omega
  have h1 : Connection.createN 1 cInit = ⟨1, [0]⟩ := by decide
  have hstep : Connection.createN SIZE_T_MAX cInit =
      Connection.createN 1
        (Connection.createN (SIZE_T_MAX - 2) ⟨1, [0]⟩) := by
    conv_lhs => rw [hsplit]
    rw [createN_add, h1, createN_add]
  have hside : (⟨1, [0]⟩ : Connection).next_prepared_statement_id +
      (SIZE_T_MAX - 2) < SIZE_T_MAX := by
    show 1 + (SIZE_T_MAX - 2) < SIZE_T_MAX
    omega
  have hc2next : (Connection.createN (SIZE_T_MAX - 2)
      (⟨1, [0]⟩ : Connection)).next_prepared_statement_id = SIZE_T_MAX - 1 := by
    rw [createN_next (SIZE_T_MAX - 2) ⟨1, [0]⟩ hside]
    show 1 + (SIZE_T_MAX - 2) = SIZE_T_MAX - 1
    omega
  have hc2mem : 0 ∈ (Connection.createN (SIZE_T_MAX - 2)
      (⟨1, [0]⟩ : Connection)).prepared_statements :=
    createN_mem _ _ _ (by simp)
  rw [hstep]
  rw [show Connection.createN 1 (Connection.createN (SIZE_T_MAX - 2)
        (⟨1, [0]⟩ : Connection)) =
      (Connection.createN (SIZE_T_MAX - 2)
        (⟨1, [0]⟩ : Connection)).CreatePreparedStatement.2 from rfl]
  rw [create_id_eq]
  rw [create_next_eq _ (by omega), hc2next]
  rw [show SIZE_T_MAX - 1 + 1 = SIZE_T_MAX from by omega, Nat.mod_self]
  exact create_mem_after _ _ hc2mem

/-- An error Status from Consume passes through ARROW_RETURN_NOT_OK
untouched: no cleanup runs. -/
theorem ipcConsumePhase_consume_error (st : IPCInsertState) (env : IPCCallEnv)
    (e : String) (h : env.consume = Except.error e) :
    ipcConsumePhase st env = (Except.error e, st) := by
  unfold ipcConsumePhase
  rw [h]

/-- An error Status from the reader construction also passes through
without cleanup. -/
theorem ipcConsumePhase_reader_error (st : IPCInsertState) (env : IPCCallEnv)
    (e : String) (hc : env.consume = Except.ok true)
    (hr : env.export_reader = Except.error e) :
    ipcConsumePhase st env = (Except.error e, st) := by
  unfold ipcConsumePhase
  rw [hc, hr]
  rfl

/-- A thrown engine failure is caught and resets options and decoder. -/
theorem ipcConsumePhase_engine_error (st : IPCInsertState) (env : IPCCallEnv)
    (e : String) (hc : env.consume = Except.ok true)
    (hr : env.export_reader = Except.ok ())
    (he : env.engine = Except.error e) :
    ipcConsumePhase st env =
      (Except.error e,
       { arrow_insert_options := none, arrow_ipc_stream := none }) := by
  unfold ipcConsumePhase
  rw [hc, hr, he]
  rfl

/-- A fresh call with parsable options enters the consume phase with the
options stored and the decoder created. -/
theorem insertIPC_fresh_ok (st : IPCInsertState) (env : IPCCallEnv)
    (opts : ArrowInsertOptions) (hs : st.arrow_ipc_stream = none)
    (hp : env.options_parse = Except.ok opts) :
    Connection.InsertArrowFromIPCStream st env =
      ipcConsumePhase
        { arrow_insert_options := some opts, arrow_ipc_stream := some () }
        env := by
  unfold Connection.InsertArrowFromIPCStream
  rw [hs, hp]
  rfl

/-- A continuation call skips the option parse. -/
theorem insertIPC_continuation (st : IPCInsertState) (env : IPCCallEnv)
    (u : Unit) (hs : st.arrow_ipc_stream = some u) :
    Connection.InsertArrowFromIPCStream st env = ipcConsumePhase st env := by
  unfold Connection.InsertArrowFromIPCStream
  rw [hs]
  rfl

/-- Claim C5 (amended): on a failed options parse the (fresh) call
returns with options cleared and no decoder, and a thrown engine failure
resets both the decoder and the options before the error returns; but an
error Status from the decoder Consume or from the record-batch reader
construction is returned through ARROW_RETURN_NOT_OK with the decoder
(and stored options) left in place, so the partial IPC-insert state is
not cleared on those failures (see the counterexample). -/
theorem InsertArrowFromIPCStream_cleanup (st : IPCInsertState)
    (env : IPCCallEnv) (e : String) (opts : ArrowInsertOptions) :
    (st.arrow_ipc_stream = none → env.options_parse = Except.error e →
      Connection.InsertArrowFromIPCStream st env =
        (Except.error e,
         { arrow_insert_options := none, arrow_ipc_stream := none })) ∧
    ((st.arrow_ipc_stream = none → env.options_parse = Except.ok opts) →
      env.consume = Except.ok true → env.export_reader = Except.ok () →
      env.engine = Except.error e →
      Connection.InsertArrowFromIPCStream st env =
        (Except.error e,
         { arrow_insert_options := none, arrow_ipc_stream := none })) ∧
    ((st.arrow_ipc_stream = none → env.options_parse = Except.ok opts) →
      env.consume = Except.error e →
      (Connection.InsertArrowFromIPCStream st env).1 = Except.error e ∧
      (Connection.InsertArrowFromIPCStream st env).2.arrow_ipc_stream.isSome
        = true) ∧
    ((st.arrow_ipc_stream = none → env.options_parse = Except.ok opts) →
      env.consume = Except.ok true → env.export_reader = Except.error e →
      (Connection.InsertArrowFromIPCStream st env).1 = Except.error e ∧
      (Connection.InsertArrowFromIPCStream st env).2.arrow_ipc_stream.isSome
        = true) := by
  refine ⟨?_, ?_, ?_, ?_⟩
  · intro hs hp
    unfold Connection.InsertArrowFromIPCStream
    rw [hs, hp]
    rfl
  · intro hp hc hr he
    cases hstream : st.arrow_ipc_stream with
    | none =>
      rw [insertIPC_fresh_ok st env opts hstream (hp hstream)]
      exact ipcConsumePhase_engine_error _ env e hc hr he
    | some u =>
      rw [insertIPC_continuation st env u hstream]
      exact ipcConsumePhase_engine_error _ env e hc hr he
  · intro hp hc
    cases hstream : st.arrow_ipc_stream with
    | none =>
      rw [insertIPC_fresh_ok st env opts hstream (hp hstream)]
      rw [ipcConsumePhase_consume_error _ env e hc]
      exact ⟨rfl, rfl⟩
    | some u =>
      rw [insertIPC_continuation st env u hstream]
      rw [ipcConsumePhase_consume_error _ env e hc]
      exact ⟨rfl, by rw [hstream]; rfl⟩
  · intro hp hc hr
    cases hstream : st.arrow_ipc_stream with
    | none =>
      rw [insertIPC_fresh_ok st env opts hstream (hp hstream)]
      rw [ipcConsumePhase_reader_error _ env e hc hr]
      exact ⟨rfl, rfl⟩
    | some u =>
      rw [insertIPC_continuation st env u hstream]
      rw [ipcConsumePhase_reader_error _ env e hc hr]
      exact ⟨rfl, by rw [hstream]; rfl⟩

/-- Witness for the amended C5 on fresh connections: a parse failure and
an engine failure both leave the cleared state, while a reader failure
leaves the decoder in place. -/
theorem InsertArrowFromIPCStream_cleanup_witness :
    Connection.InsertArrowFromIPCStream ⟨none, none⟩ envParseFail =
      (Except.error "options must be an object",
       { arrow_insert_options := none, arrow_ipc_stream := none }) ∧
    Connection.InsertArrowFromIPCStream ⟨none, none⟩ envEngineFail =
      (Except.error "table t already exists",
       { arrow_insert_options := none, arrow_ipc_stream := none }) ∧
    (Connection.InsertArrowFromIPCStream ⟨none, none⟩
        envReaderFail).2.arrow_ipc_stream.isSome = true := by
  have h1 := InsertArrowFromIPCStream_cleanup ⟨none, none⟩ envParseFail
    "options must be an object" exOpts
  have h2 := InsertArrowFromIPCStream_cleanup ⟨none, none⟩ envEngineFail
    "table t already exists" exOpts
  have h3 := InsertArrowFromIPCStream_cleanup ⟨none, none⟩ envReaderFail
    "invalid stream" exOpts
  exact ⟨h1.1 rfl rfl, h2.2.1 (fun _ => rfl) rfl rfl rfl,
    (h3.2.2.2 (fun _ => rfl) rfl rfl).2⟩

/-- Claim C5 counterexample: on a fresh connection, an IPC insert whose
decoder Consume fails returns the error with the decoder still created
and the parsed options still stored - the partial state is not cleared. -/
theorem ipc_consume_error_keeps_state :
    (Connection.InsertArrowFromIPCStream ⟨none, none⟩ envConsumeFail).1 =
      Except.error "expected schema message" ∧
    (Connection.InsertArrowFromIPCStream ⟨none, none⟩
        envConsumeFail).2.arrow_ipc_stream = some () ∧
    (Connection.InsertArrowFromIPCStream ⟨none, none⟩
        envConsumeFail).2.arrow_insert_options = some exOpts :=
  ⟨rfl, rfl, rfl⟩

/-- Claim C6 (amended): protocol inference yields HTTP exactly for urls
starting with http:// or https:// and NATIVE otherwise (including
file:// urls); but the file record created from such a url stores the
protocol together with the original url unstripped: the file:// prefix
is computed away only into a dead local of `inferDataProtocol` and the
stored `data_url_` keeps it (see the counterexample). -/
theorem inferDataProtocol_and_stored_url (url name : String) (fs : FS)
    (sz : Option Nat) (hsz : Nat) :
    ((hasPfx url "http://" || hasPfx url "https://") = true →
        inferDataProtocol url = DataProtocol.http) ∧
    ((hasPfx url "http://" || hasPfx url "https://") = false →
        inferDataProtocol url = DataProtocol.native) ∧
    (fs.findByName name = none →
        ∃ fs1, fs.RegisterFileURL name url sz =
            Except.ok (fs1, fs.next_file_id) ∧
          (fs1.getFile fs.next_file_id).map WebFile.data_protocol =
            some (inferDataProtocol url) ∧
          (fs1.getFile fs.next_file_id).map WebFile.data_url =
            some (some url)) ∧
    (fs.findIdByName url = none →
        ((fs.OpenFile url false (HostOpenResult.success hsz none)).1.getFile
            fs.next_file_id).map WebFile.data_protocol =
          some (inferDataProtocol url) ∧
        ((fs.OpenFile url false (HostOpenResult.success hsz none)).1.getFile
            fs.next_file_id).map WebFile.data_url = some (some url)) := by
  refine ⟨?_, ?_, ?_, ?_⟩
  · intro h
    unfold inferDataProtocol
    rw [if_pos h]
  · intro h
    unfold inferDataProtocol
    rw [if_neg (by simp [h])]
    split_ifs <;> rfl
  · intro h
    unfold FS.RegisterFileURL
    rw [h]
    dsimp only [FS.AllocateFileID, WebFile.mk0, FS.mkHandle]
    refine ⟨_, rfl, ?_, ?_⟩
    · rw [getFile_updateFile, getFile_insertFile_eq _ _ _ rfl]
      rfl
    · rw [getFile_updateFile, getFile_insertFile_eq _ _ _ rfl]
      rfl
  · intro h
    unfold FS.OpenFile
    rw [h]
    dsimp only [FS.AllocateFileID, WebFile.mk0, FS.mkHandle]
    rw [getFile_updateFile, getFile_insertFile_eq _ _ _ rfl]
    simp only [Option.map_some']
    rw [if_neg (inferDataProtocol_ne_buffer url)]
    rw [if_neg (by simp)]
    rw [if_neg (by decide : ¬(false = true))]
    constructor
    · rw [getFile_updateFile, getFile_updateFile,
        getFile_insertFile_eq _ _ _ rfl]
      rfl
    · rw [getFile_updateFile, getFile_updateFile,
        getFile_insertFile_eq _ _ _ rfl]
      rfl

/-- Witness for the amended C6: http and file urls infer HTTP resp.
NATIVE, and registering under a file:// url stores the unstripped url. -/
theorem inferDataProtocol_and_stored_url_witness :
    inferDataProtocol "https://h/x.parquet" = DataProtocol.http ∧
    inferDataProtocol "file:///tmp/a" = DataProtocol.native ∧
    (match fsEmpty.RegisterFileURL "a" "file:///tmp/a" none with
      | Except.ok r => (r.1.getFile 0).map WebFile.data_url
      | Except.error _ => none) = some (some "file:///tmp/a") := by
  have h1 := inferDataProtocol_and_stored_url "https://h/x.parquet" "a"
    fsEmpty none 0
  have h2 := inferDataProtocol_and_stored_url "file:///tmp/a" "a"
    fsEmpty none 0
  refine ⟨h1.1 (by decide), h2.2.1 (by decide), ?_⟩
  obtain ⟨fs1, hok, _, hurl⟩ := h2.2.2.1 (by decide)
  rw [hok]
  exact hurl

/-- Claim C6 counterexample: registering name "a" under the url
file:///tmp/a creates a NATIVE record whose stored url is the full
"file:///tmp/a", not the stripped "/tmp/a" required by the claim (the
stripped view the source computes is discarded). -/
theorem registered_file_url_not_stripped :
    (match fsEmpty.RegisterFileURL "a" "file:///tmp/a" none with
      | Except.ok r => (r.1.getFile 0).map WebFile.data_url
      | Except.error _ => none) = some (some "file:///tmp/a") ∧
    (match fsEmpty.RegisterFileURL "a" "file:///tmp/a" none with
      | Except.ok r => (r.1.getFile 0).map WebFile.data_protocol
      | Except.error _ => none) = some DataProtocol.native ∧
    strippedFileUrl "file:///tmp/a" = "/tmp/a" ∧
    ("file:///tmp/a" = "/tmp/a") = False := by
  refine ⟨by decide, by decide, by decide, by simp⟩

/-- Claim C7: RegisterFileURL returns a new handle to the existing file
when the name is registered with a matching stored url; fails with the
AlreadyRegistered error when the name is registered with a different
url; and otherwise allocates the fresh file id, infers the protocol,
stores the record in both maps and returns a handle to it. -/
theorem RegisterFileURL_spec (fs : FS) (name url : String) (sz : Option Nat)
    (g : WebFile) :
    (fs.findByName name = some g → g.data_url = some url →
        fs.RegisterFileURL name url sz =
          Except.ok (fs.mkHandle g.file_id, g.file_id)) ∧
    (fs.findByName name = some g → g.data_url ≠ some url →
        fs.RegisterFileURL name url sz =
          Except.error (FSError.alreadyRegistered name)) ∧
    (fs.findByName name = none →
        ∃ fs1, fs.RegisterFileURL name url sz =
            Except.ok (fs1, fs.next_file_id) ∧
          fs1.nameInMap name = true ∧
          fs1.idInMap fs.next_file_id = true ∧
          fs1.getFile fs.next_file_id =
            some { file_id := fs.next_file_id, file_name := name,
                   data_protocol := inferDataProtocol url,
                   data_url := some url, data_fd := none,
                   file_size := sz.getD 0, data_buffer := none,
                   handle_count := 1 } ∧
          fs1.next_file_id = fs.next_file_id + 1) := by
  refine ⟨?_, ?_, ?_⟩
  · intro h1 h2
    unfold FS.RegisterFileURL
    rw [h1]
    dsimp only
    rw [if_pos h2]
  · intro h1 h2
    unfold FS.RegisterFileURL
    rw [h1]
    dsimp only
    rw [if_neg h2]
  · intro h
    unfold FS.RegisterFileURL
    rw [h]
    dsimp only [FS.AllocateFileID, WebFile.mk0, FS.mkHandle]
    refine ⟨_, rfl, ?_, ?_, ?_, rfl⟩
    · simp [FS.nameInMap, FS.insertFile, FS.updateFile, List.find?]
    · simp [FS.idInMap, FS.insertFile, FS.updateFile]
    · rw [getFile_updateFile, getFile_insertFile_eq _ _ _ rfl]
      rfl

/-- Witness for C7: re-registering "x" with its stored url returns a
handle to file 7; re-registering with a different url fails
AlreadyRegistered; registering a fresh name lands in both maps. -/
theorem RegisterFileURL_spec_witness :
    exFs.RegisterFileURL "x" "http://h/x" (some 99) =
      Except.ok (exFs.mkHandle 7, 7) ∧
    exFs.RegisterFileURL "x" "http://other" none =
      Except.error (FSError.alreadyRegistered "x") ∧
    (match fsEmpty.RegisterFileURL "a" "http://h/a" none with
      | Except.ok r => r.1.nameInMap "a" && r.1.idInMap 0
      | Except.error _ => false) = true := by
  have h1 := RegisterFileURL_spec exFs "x" "http://h/x" (some 99) exHttpFile
  have h2 := RegisterFileURL_spec exFs "x" "http://other" none exHttpFile
  have h3 := RegisterFileURL_spec fsEmpty "a" "http://h/a" none exHttpFile
  refine ⟨?_, h2.2.1 (by decide) (by decide), ?_⟩
  · have := h1.1 (by decide) (by decide)
    simpa using this
  · obtain ⟨fs1, hok, hn, hi, _, _⟩ := h3.2.2 (by decide)
    rw [hok]
    have hi0 : fs1.idInMap 0 = true := hi
    simp [hn, hi0]

/-- Claim C10: when RegisterFileURL finds the name registered with a
matching url, the existing record keeps its file_id, file_size, protocol
and data_url (only the handle count moves), and the passed file_size
argument is ignored: any two size arguments produce the same result. -/
theorem RegisterFileURL_matching_preserves (fs : FS) (name url : String)
    (sz sz2 : Option Nat) (fid : Nat) (g : WebFile)
    (hn : fs.findIdByName name = some fid) (hg : fs.getFile fid = some g)
    (hid : g.file_id = fid) (hu : g.data_url = some url) :
    fs.RegisterFileURL name url sz = Except.ok (fs.mkHandle fid, fid) ∧
    (fs.mkHandle fid).getFile fid =
      some { g with handle_count := g.handle_count + 1 } ∧
    fs.RegisterFileURL name url sz = fs.RegisterFileURL name url sz2 := by
  have hby : fs.findByName name = some g := by
    unfold FS.findByName
    rw [hn]
    exact hg
  have hmain : ∀ s : Option Nat,
      fs.RegisterFileURL name url s = Except.ok (fs.mkHandle fid, fid) := by
    intro s
    unfold FS.RegisterFileURL
    rw [hby]
    dsimp only
    rw [if_pos hu, hid]
  refine ⟨hmain sz, ?_, (hmain sz).trans (hmain sz2).symm⟩
  unfold FS.mkHandle
  rw [getFile_updateFile, hg]
  rfl

/-- Witness for C10: re-registering "x" under its url with sizes 99 and
none gives the same handle to the unchanged file 7, whose count becomes
2 while id, name, protocol, url, size and buffer stay put. -/
theorem RegisterFileURL_matching_preserves_witness :
    exFs.RegisterFileURL "x" "http://h/x" (some 99) =
      Except.ok (exFs.mkHandle 7, 7) ∧
    (exFs.mkHandle 7).getFile 7 =
      some { exHttpFile with handle_count := 2 } ∧
    exFs.RegisterFileURL "x" "http://h/x" (some 99) =
      exFs.RegisterFileURL "x" "http://h/x" none := by
  have h := RegisterFileURL_matching_preserves exFs "x" "http://h/x"
    (some 99) none 7 exHttpFile (by decide) (by decide) (by decide) (by decide)
  exact ⟨h.1, h.2.1, h.2.2⟩

end DuckDBWasm
